import Mathlib

/-!
Verification of the Creator OS backend (FastAPI + Supabase).

Shallow embedding: the decision logic of each handler is translated to a pure
Lean function; the managed database is modelled as explicit lists of row
records threaded through the functions; HTTP failures become `Except Nat`
errors carrying the status code; "now" is an explicit integer timestamp
in seconds.
-/

namespace CreatorOS

/-! ## Access gate — `app/middleware/subscription.py`, `check_subscription` -/

/-- The profile columns selected by `check_subscription`
(`subscription_status, subscription_tier, trial_ends_at, created_at`).
`created_at` is a Unix timestamp in seconds; `none` models a null/empty
value (Python falsy check `if created_at:`). -/
structure ProfileData where
  subscription_status : String
  subscription_tier : String
  created_at : Option Int
  deriving Repr, DecidableEq

/-- The access decision returned by `check_subscription`.  The handler also
returns informational extras (status echo, days left, upgrade message) that
no claim depends on; they are not modelled. -/
structure AccessInfo where
  has_access : Bool
  reason : String
  deriving Repr, DecidableEq

/-- Seconds in `timedelta(days=7)`. -/
def sevenDays : Int := 7 * 86400

/-- Model of `check_subscription(user_id)`: the input is the profile row found for
the user (`none` when absent) and the current time.  Missing profile →
HTTP 404.  Active/trialing "pro" subscription → granted
`active_subscription`.  Otherwise, granted `free_trial` while
`now < created_at + 7 days`, else denied `trial_expired`. -/
def check_subscription (profile : Option ProfileData) (now : Int) :
    Except Nat AccessInfo :=
  match profile with
  | none => Except.error 404
  | some data =>
    if data.subscription_status ∈ ["active", "trialing"] ∧
        data.subscription_tier = "pro" then
      Except.ok { has_access := true, reason := "active_subscription" }
    else
      match data.created_at with
      | some created_date =>
        if now < created_date + sevenDays then
          Except.ok { has_access := true, reason := "free_trial" }
        else
          Except.ok { has_access := false, reason := "trial_expired" }
      | none =>
        Except.ok { has_access := false, reason := "trial_expired" }

/-! ## Deal pipeline — `app/routers/deals.py` -/

/-- The fixed status enum checked by `move_deal`. -/
def valid_statuses : List String :=
  ["lead", "outreach", "negotiation", "closed_won", "closed_lost"]

/-- The deal columns relevant to the move operation. -/
structure DealRow where
  id : Nat
  user_id : Nat
  status : String
  deriving Repr, DecidableEq

/-- Model of `move_deal(deal_id, new_status)`: validates `new_status` against
`valid_statuses` before touching the database (HTTP 400 on failure), then
updates the status of the deal matching `(id, user_id)`; if the update
matches no row the handler reports HTTP 404.  Returns the resulting table
state together with the handler outcome. -/
def move_deal (db : List DealRow) (uid deal_id : Nat) (new_status : String) :
    List DealRow × Except Nat DealRow :=
  if new_status ∉ valid_statuses then
    (db, Except.error 400)
  else
    let updated := db.map (fun d =>
      if d.id = deal_id ∧ d.user_id = uid then
        { d with status := new_status } else d)
    match updated.filter (fun d => d.id == deal_id && d.user_id == uid) with
    | [] => (updated, Except.error 404)
    | d :: _ => (updated, Except.ok d)

/-! ## Billing sync — `app/routers/stripe.py`, `stripe_webhook` -/

/-- The profile columns relevant to the webhook branches. -/
structure ProfileRow where
  id : Nat
  stripe_customer_id : Option String
  subscription_status : String
  subscription_tier : String
  deriving Repr, DecidableEq

/-- The `customer.subscription.deleted` branch of `stripe_webhook`: look up
the (first) profile whose `stripe_customer_id` equals the customer id of
the event; when found, set `subscription_status` to `"cancelled"` and
`subscription_tier` to `"free"` on every profile row with that id. -/
def stripe_webhook_subscription_deleted (db : List ProfileRow)
    (customer_id : String) : List ProfileRow :=
  match db.find? (fun p => p.stripe_customer_id == some customer_id) with
  | none => db
  | some p =>
    db.map (fun q =>
      if q.id = p.id then
        { q with subscription_status := "cancelled",
                 subscription_tier := "free" }
      else q)

/-! ## Deal statistics — `app/routers/deals.py`, `get_deal_stats`

Amounts are Python `Decimal` values; the handler converts
`deal.get("amount") or 0` to `Decimal`, adds exactly, and divides the sum
of positive amounts by their count.  We model the decimal values as `ℚ`
(decimal addition is exact; the division is modelled as exact). -/

/-- The deal columns selected for statistics (`status, amount`);
`amount = none` models a null amount. -/
structure DealStatRec where
  status : String
  amount : Option ℚ
  deriving Repr, DecidableEq

/-- Model of `Decimal(str(deal.get("amount") or 0))`. -/
def amtOf (d : DealStatRec) : ℚ := d.amount.getD 0

/-- The loop accumulator of `get_deal_stats` (`by_status`, `pipeline_value`,
`closed_value`, `deal_amounts`). -/
structure StatsAcc where
  by_status : List (String × Nat)
  pipeline_value : ℚ
  closed_value : ℚ
  deal_amounts : List ℚ
  deriving Repr, DecidableEq

/-- Model of `by_status[deal_status] = by_status.get(deal_status, 0) + 1` on an
insertion-ordered association list. -/
def bumpStatus : List (String × Nat) → String → List (String × Nat)
  | [], s => [(s, 1)]
  | (t, n) :: rest, s =>
    if t = s then (t, n + 1) :: rest else (t, n) :: bumpStatus rest s

/-- The "open" statuses contributing to pipeline value. -/
def openStatuses : List String := ["lead", "outreach", "negotiation"]

/-- One iteration of the `for deal in deals` loop of `get_deal_stats`:
count the status, and when the amount is strictly positive record it and
add it to `closed_value` (status `closed_won`) or `pipeline_value`
(status in `openStatuses`). -/
def statsStep (acc : StatsAcc) (d : DealStatRec) : StatsAcc :=
  if 0 < amtOf d then
    if d.status = "closed_won" then
      { by_status := bumpStatus acc.by_status d.status
        pipeline_value := acc.pipeline_value
        closed_value := acc.closed_value + amtOf d
        deal_amounts := acc.deal_amounts ++ [amtOf d] }
    else if d.status ∈ openStatuses then
      { by_status := bumpStatus acc.by_status d.status
        pipeline_value := acc.pipeline_value + amtOf d
        closed_value := acc.closed_value
        deal_amounts := acc.deal_amounts ++ [amtOf d] }
    else
      { by_status := bumpStatus acc.by_status d.status
        pipeline_value := acc.pipeline_value
        closed_value := acc.closed_value
        deal_amounts := acc.deal_amounts ++ [amtOf d] }
  else
    { acc with by_status := bumpStatus acc.by_status d.status }

/-- The `DealStats` response model. -/
structure DealStats where
  total_deals : Nat
  by_status : List (String × Nat)
  pipeline_value : ℚ
  closed_value : ℚ
  avg_deal_size : Option ℚ
  deriving Repr, DecidableEq

/-- Model of `get_deal_stats`: fold the loop over the deals of the user, then
`avg_deal_size = sum(deal_amounts) / len(deal_amounts) if deal_amounts
else None`. -/
def get_deal_stats (deals : List DealStatRec) : DealStats :=
  let acc := deals.foldl statsStep ⟨[], 0, 0, []⟩
  { total_deals := deals.length
    by_status := acc.by_status
    pipeline_value := acc.pipeline_value
    closed_value := acc.closed_value
    avg_deal_size :=
      if acc.deal_amounts.isEmpty then none
      else some (acc.deal_amounts.sum / (acc.deal_amounts.length : ℚ)) }

/-- Written from the spec: "sum of amount across deals whose status is
`closed_won`". -/
def spec_closed_value (deals : List DealStatRec) : ℚ :=
  ((deals.filter (fun d => decide (d.status = "closed_won"))).map amtOf).sum

/-- Written from the spec: "sum of amount across deals whose status is in
the open set {lead, outreach, negotiation}". -/
def spec_pipeline_value (deals : List DealStatRec) : ℚ :=
  ((deals.filter (fun d => decide (d.status ∈ openStatuses))).map amtOf).sum

/-- Written from the spec: "arithmetic mean deal amount over deals with a
positive amount", `none` when no such deal exists. -/
def spec_avg_deal_size (deals : List DealStatRec) : Option ℚ :=
  let pos := (deals.filter (fun d => decide (0 < amtOf d))).map amtOf
  if pos.isEmpty then none else some (pos.sum / (pos.length : ℚ))

/-! ## CSV upload — `app/routers/comments.py`, `upload_comments_csv` -/

/-- Python `str.strip()`: drop leading and trailing whitespace.  (Defined
over the character list so that concrete instances evaluate by `decide`.) -/
def strip (s : String) : String :=
  ⟨(((s.data.dropWhile Char.isWhitespace).reverse.dropWhile
      Char.isWhitespace).reverse)⟩

/-- Python `filename.endswith(".csv")`. -/
def filenameEndsWithCsv (filename : String) : Bool :=
  ".csv".data.isSuffixOf filename.data

/-- One parsed CSV row as seen by `csv.DictReader`: each expected column is
either absent (`none`) or a string. -/
structure CSVRow where
  content : Option String
  author_name : Option String
  author_handle : Option String
  post_url : Option String
  post_title : Option String
  date : Option String
  deriving Repr, DecidableEq

/-- Model of `row.get("content", "").strip()`. -/
def rowContent (r : CSVRow) : String := strip (r.content.getD "")

/-- Model of `row.get(col, "").strip() or None` for the optional text columns. -/
def optField : Option String → Option String
  | none => none
  | some s => if strip s = "" then none else some (strip s)

/-- The normalized comment record built for insertion.  `original_date`
holds the re-serialized parse result. -/
structure CommentDict where
  user_id : Nat
  platform : String
  content : String
  author_name : Option String
  author_handle : Option String
  post_url : Option String
  post_title : Option String
  original_date : Option String
  deriving Repr, DecidableEq

/-- Builds the insertion dict for one valid row.  `parseIso` models
`datetime.fromisoformat` followed by `.isoformat()`; a parse failure
(`none`) leaves the date null, and a missing or empty `date` value is
skipped by the `if row.get('date'):` truthiness test. -/
def mkCommentDict (uid : Nat) (platform : String)
    (parseIso : String → Option String) (r : CSVRow) : CommentDict :=
  { user_id := uid
    platform := platform
    content := rowContent r
    author_name := optField r.author_name
    author_handle := optField r.author_handle
    post_url := optField r.post_url
    post_title := optField r.post_title
    original_date :=
      match r.date with
      | none => none
      | some s => if s = "" then none else parseIso s }

/-- The `for row in reader` loop: `n` is the running `row_num` (incremented
at the top of each iteration).  Rows with empty (stripped) content are
skipped and their row number recorded as an error; the rest become
insertion dicts, in order.  The error list models
`errors.append(f"Row {row_num}: Missing content field")` by its row
numbers. -/
def processRows (uid : Nat) (platform : String)
    (parseIso : String → Option String) :
    List CSVRow → Nat → List CommentDict × List Nat
  | [], _ => ([], [])
  | r :: rest, n =>
    let res := processRows uid platform parseIso rest (n + 1)
    if rowContent r = "" then (res.1, (n + 1) :: res.2)
    else (mkCommentDict uid platform parseIso r :: res.1, res.2)

/-- Model of `upload_comments_csv`: rejects non-`.csv` filenames, processes the
rows starting from `row_num = 0`, and fails with HTTP 400 when no valid
comment remains; otherwise returns the comments to insert and the
per-row errors. -/
def upload_comments_csv (uid : Nat) (platform : String)
    (parseIso : String → Option String) (filename : String)
    (rows : List CSVRow) : Except Nat (List CommentDict × List Nat) :=
  if !filenameEndsWithCsv filename then Except.error 400
  else
    let res := processRows uid platform parseIso rows 0
    if res.1.isEmpty then Except.error 400
    else Except.ok res

/-! ## YouTube import — `app/routers/integrations.py`,
`import_youtube_comments`

The remote API is modelled by its data: one video is the list of its
comment pages (each page carries at most `maxResults = 100` items), and a
comment is its content string. -/

/-- The inner `while True` pagination loop for one video: the items of the
current page are appended to the accumulator, then the loop breaks when
there is no `nextPageToken` (modelled as no remaining page) or the
accumulated total has reached 500 — `if not next_page_token or
len(all_comments) >= 500: break`. -/
def fetchVideoPages : List (List String) → List String → List String
  | [], acc => acc
  | page :: rest, acc =>
    if rest.isEmpty || decide (500 ≤ (acc ++ page).length) then acc ++ page
    else fetchVideoPages rest (acc ++ page)

/-- The outer `for video_id in request.video_ids` loop:
`if len(all_comments) >= 500: break` between videos. -/
def importLoop : List (List (List String)) → List String → List String
  | [], acc => acc
  | video :: rest, acc =>
    if 500 ≤ (fetchVideoPages video acc).length then fetchVideoPages video acc
    else importLoop rest (fetchVideoPages video acc)

/-- Model of `import_youtube_comments`: accumulate comments over all requested
videos starting from an empty list; the accumulated list is what gets
persisted in batches of 100. -/
def import_youtube_comments (videos : List (List (List String))) :
    List String :=
  importLoop videos []

/-! ## Clustering orchestrator — `app/routers/ai.py`, `cluster_comments`

The LLM round trip is modelled by its parsed output: the list of groups
decoded from the model response JSON (`clusters_data`).  The database is
an `AIState`: the comments table, the clusters table, the
`cluster_comments` join table, and the next cluster id to assign. -/

/-- Python `str.lower()` (ASCII case fold, defined over the character
list so that concrete instances evaluate by `decide`). -/
def lowerStr (s : String) : String := ⟨s.data.map Char.toLower⟩

/-- Python substring test `needle in hay` on character lists. -/
def charsContainSub (needle : List Char) : List Char → Bool
  | [] => needle.isEmpty
  | c :: rest => needle.isPrefixOf (c :: rest) || charsContainSub needle rest

/-- Python substring test `needle in hay` on strings. -/
def strIn (needle hay : String) : Bool := charsContainSub needle.data hay.data

/-- The comment columns selected by the clustering endpoint
(`id, content, platform, import_id`) plus the two columns it mutates
(`is_processed`, `cluster_id`). -/
structure CommentRow where
  id : Nat
  user_id : Nat
  content : String
  platform : Option String
  import_id : Option Nat
  is_processed : Bool
  cluster_id : Option Nat
  deriving Repr, DecidableEq

/-- `ClusterAnalysisRequest`. -/
structure ClusterRequest where
  comment_ids : Option (List Nat)
  num_clusters : Nat
  min_cluster_size : Nat
  deriving Repr, DecidableEq

/-- One content idea of a model group (already normalized to the three
expected keys). -/
structure ContentIdea where
  title : String
  description : String
  content_type : String
  deriving Repr, DecidableEq

/-- One group of the parsed model response (`clusters_data` entry):
`sample_comment_indices` are the positional indices returned by the model
(arbitrary integers), `sample_comments` its free-text samples used by the
fallback matching and by the `comment_count` default. -/
structure GroupData where
  theme : String
  summary : String
  sample_comment_indices : List Int
  sample_comments : List String
  content_ideas : List ContentIdea
  deriving Repr, DecidableEq

/-- A row of the `clusters` table as inserted by the endpoint. -/
structure ClusterRow where
  id : Nat
  user_id : Nat
  theme : String
  summary : String
  sample_comments : List String
  content_ideas : List ContentIdea
  comment_count : Nat
  is_active : Bool
  primary_platform : Option String
  platforms : List String
  import_ids : List Nat
  deriving Repr, DecidableEq

/-- The database state touched by the clustering endpoint: comments,
clusters, the `cluster_comments` join table (cluster id × comment id),
and the id the next inserted cluster receives. -/
structure AIState where
  comments : List CommentRow
  clusters : List ClusterRow
  cluster_comments : List (Nat × Nat)
  nextClusterId : Nat
  deriving Repr, DecidableEq

/-- The comment fetch: rows of the user, restricted to the explicitly
listed ids when given and to `is_processed = false` otherwise, with
`query.limit(500)`. -/
def fetchComments (comments : List CommentRow) (uid : Nat)
    (req : ClusterRequest) : List CommentRow :=
  let base := comments.filter (fun c => decide (c.user_id = uid))
  let filtered : List CommentRow :=
    match req.comment_ids with
    | some ids => base.filter (fun c => decide (c.id ∈ ids))
    | none => base.filter (fun c => !c.is_processed)
  filtered.take 500

/-- The prompt lines `comments_for_ai`: only `comments[:200]` are
formatted, as `[i] content`. -/
def comments_for_ai (fetched : List CommentRow) : List String :=
  (fetched.take 200).enum.map
    (fun ic => "[" ++ toString ic.1 ++ "] " ++ ic.2.content)

/-- Index mapping of one group: each returned index that is an integer in
`[0, len(comments))` is mapped to the fetched comment at that position;
out-of-range indices are silently skipped. -/
def indexMembers (fetched : List CommentRow) (g : GroupData) :
    List CommentRow :=
  g.sample_comment_indices.filterMap (fun idx =>
    if 0 ≤ idx ∧ idx < (fetched.length : Int) then fetched[idx.toNat]?
    else none)

/-- The fallback when no index mapped: for each of the first five
free-text samples, the first fetched comment whose lower-cased content
contains the lower-cased sample as a substring (or conversely). -/
def fallbackMatches (fetched : List CommentRow) (samples : List String) :
    List CommentRow :=
  (samples.take 5).filterMap (fun sample =>
    fetched.find? (fun c =>
      strIn (lowerStr sample) (lowerStr c.content) ||
      strIn (lowerStr c.content) (lowerStr sample)))

/-- The members of one group: the index-mapped comments, or the fallback
matches when no index mapped. -/
def groupMembers (fetched : List CommentRow) (g : GroupData) :
    List CommentRow :=
  if (indexMembers fetched g).isEmpty then
    fallbackMatches fetched g.sample_comments
  else indexMembers fetched g

/-- `Counter(cluster_platforms).most_common(1)[0][0]`: the most frequent
platform, earliest first occurrence winning ties; `None` when the list is
empty. -/
def primaryPlatform (ps : List String) : Option String :=
  match ps.eraseDups with
  | [] => none
  | u :: us =>
    some (us.foldl (fun best p =>
      if ps.count best < ps.count p then p else best) u)

/-- Processing of one model group: compute the members, insert the
cluster row (`comment_count` falls back to the length of the free-text
`sample_comments` list when no member id was collected), insert one join
row per member id, and set `cluster_id` on the member comments.  The
platform lists keep only truthy (non-null, non-empty) platforms. -/
def processGroup (uid : Nat) (fetched : List CommentRow) (st : AIState)
    (g : GroupData) : AIState :=
  { comments :=
      if ((groupMembers fetched g).map (fun c => c.id)).isEmpty then
        st.comments
      else
        st.comments.map (fun c =>
          if c.id ∈ (groupMembers fetched g).map (fun m => m.id) then
            { c with cluster_id := some st.nextClusterId }
          else c)
    clusters := st.clusters ++
      [{ id := st.nextClusterId
         user_id := uid
         theme := g.theme
         summary := g.summary
         sample_comments := ((groupMembers fetched g).map
           (fun c => c.content)).take 5
         content_ideas := g.content_ideas
         comment_count :=
           if ((groupMembers fetched g).map (fun c => c.id)).isEmpty then
             g.sample_comments.length
           else ((groupMembers fetched g).map (fun c => c.id)).length
         is_active := true
         primary_platform := primaryPlatform
           (((groupMembers fetched g).filterMap (fun c => c.platform)).filter
             (fun p => !(p == "")))
         platforms :=
           (((groupMembers fetched g).filterMap (fun c => c.platform)).filter
             (fun p => !(p == ""))).eraseDups
         import_ids :=
           ((groupMembers fetched g).filterMap
             (fun c => c.import_id)).eraseDups }]
    cluster_comments := st.cluster_comments ++
      ((groupMembers fetched g).map (fun c => c.id)).map
        (fun mid => (st.nextClusterId, mid))
    nextClusterId := st.nextClusterId + 1 }

/-- The final bulk update (lines 499–501): every originally fetched
comment id gets `is_processed = true`. -/
def markProcessed (st : AIState) (fetched : List CommentRow) : AIState :=
  { st with comments := st.comments.map (fun c =>
      if c.id ∈ fetched.map (fun f => f.id) then
        { c with is_processed := true }
      else c) }

/-- The success path of the endpoint: fold the per-group processing over
the parsed groups, then mark all fetched comments processed. -/
def runClustering (st : AIState) (uid : Nat) (req : ClusterRequest)
    (groups : List GroupData) : AIState :=
  markProcessed
    (groups.foldl (processGroup uid (fetchComments st.comments uid req)) st)
    (fetchComments st.comments uid req)

/-- `ClusterAnalysisResponse` (the per-cluster echo list is not
modelled). -/
structure ClusterAnalysisResponse where
  clusters_created : Nat
  comments_processed : Nat
  deriving Repr, DecidableEq

/-- The `cluster_comments` endpoint: fetch, reject with HTTP 400 when
fewer comments are available than the requested minimum cluster size,
otherwise run the clustering and answer with the number of created
clusters and of processed (fetched) comments. -/
def cluster_comments (st : AIState) (uid : Nat) (req : ClusterRequest)
    (groups : List GroupData) :
    Except Nat (AIState × ClusterAnalysisResponse) :=
  if (fetchComments st.comments uid req).length < req.min_cluster_size then
    Except.error 400
  else
    Except.ok (runClustering st uid req groups,
      { clusters_created := groups.length
        comments_processed := (fetchComments st.comments uid req).length })

/-- A concrete comments table: ten unprocessed comments of user 1 with
distinct contents. -/
def demoComments : List CommentRow :=
  [{ id := 1, user_id := 1, content := "c1", platform := none,
     import_id := none, is_processed := false, cluster_id := none },
   { id := 2, user_id := 1, content := "c2", platform := none,
     import_id := none, is_processed := false, cluster_id := none },
   { id := 3, user_id := 1, content := "c3", platform := none,
     import_id := none, is_processed := false, cluster_id := none },
   { id := 4, user_id := 1, content := "c4", platform := none,
     import_id := none, is_processed := false, cluster_id := none },
   { id := 5, user_id := 1, content := "c5", platform := none,
     import_id := none, is_processed := false, cluster_id := none },
   { id := 6, user_id := 1, content := "c6", platform := none,
     import_id := none, is_processed := false, cluster_id := none },
   { id := 7, user_id := 1, content := "c7", platform := none,
     import_id := none, is_processed := false, cluster_id := none },
   { id := 8, user_id := 1, content := "c8", platform := none,
     import_id := none, is_processed := false, cluster_id := none },
   { id := 9, user_id := 1, content := "c9", platform := none,
     import_id := none, is_processed := false, cluster_id := none },
   { id := 10, user_id := 1, content := "c10", platform := none,
     import_id := none, is_processed := false, cluster_id := none }]

/-- The database state holding just `demoComments`. -/
def demoState : AIState :=
  { comments := demoComments, clusters := [], cluster_comments := [],
    nextClusterId := 1 }

/-- A clustering request for all unprocessed comments. -/
def demoReq : ClusterRequest :=
  { comment_ids := none, num_clusters := 2, min_cluster_size := 3 }

/-- The mocked model response: cluster A gets indices [0,2,4], cluster B
gets [1,3]; indices 5–9 appear nowhere. -/
def demoGroups : List GroupData :=
  [{ theme := "A", summary := "", sample_comment_indices := [0, 2, 4],
     sample_comments := [], content_ideas := [] },
   { theme := "B", summary := "", sample_comment_indices := [1, 3],
     sample_comments := [], content_ideas := [] }]

end CreatorOS

namespace CreatorOS

/-! ## Theorems -/

/-- C1: for a profile with a creation timestamp, a qualifying subscription
(status active/trialing and tier pro) yields `active_subscription`;
otherwise access is granted as `free_trial` exactly when
`now < created_at + 7 days`, and denied as `trial_expired` otherwise. -/
theorem check_subscription_cases (p : ProfileData) (now created : Int)
    (hc : p.created_at = some created) :
    (p.subscription_status ∈ ["active", "trialing"] ∧
        p.subscription_tier = "pro" →
      check_subscription (some p) now =
        Except.ok { has_access := true, reason := "active_subscription" }) ∧
    (¬ (p.subscription_status ∈ ["active", "trialing"] ∧
        p.subscription_tier = "pro") →
      ((check_subscription (some p) now =
          Except.ok { has_access := true, reason := "free_trial" }) ↔
        now < created + sevenDays) ∧
      (created + sevenDays ≤ now →
        check_subscription (some p) now =
          Except.ok { has_access := false, reason := "trial_expired" })) := by
  constructor
  · intro hq
    simp [check_subscription, hq]
  · intro hq
    have hq' : ¬ ((p.subscription_status = "active" ∨
        p.subscription_status = "trialing") ∧ p.subscription_tier = "pro") := by
      simpa using hq
    constructor
    · constructor
      · intro h
        by_contra hlt
        simp [check_subscription, hq', hc, hlt] at h
      · intro hlt
        simp [check_subscription, hq', hc, hlt]
    · intro hge
      have hlt : ¬ now < created + sevenDays := not_lt.mpr hge
      simp [check_subscription, hq', hc, hlt]

/-- Witness for C1 at concrete inputs: a free-tier profile created at time 0,
queried at time 0 (inside the trial) and at time `sevenDays` (expired). -/
theorem check_subscription_cases_witness :
    check_subscription
        (some { subscription_status := "none", subscription_tier := "free",
                created_at := some 0 }) 0 =
      Except.ok { has_access := true, reason := "free_trial" } ∧
    check_subscription
        (some { subscription_status := "none", subscription_tier := "free",
                created_at := some 0 }) sevenDays =
      Except.ok { has_access := false, reason := "trial_expired" } :=
  ⟨((check_subscription_cases
      { subscription_status := "none", subscription_tier := "free",
        created_at := some 0 } 0 0 rfl).2 (by decide)).1.mpr (by decide),
   ((check_subscription_cases
      { subscription_status := "none", subscription_tier := "free",
        created_at := some 0 } sevenDays 0 rfl).2 (by decide)).2 (by decide)⟩

/-- C9: when the profile record is absent, `check_subscription` fails with a
distinct 404 error — for every current time, it never returns a
trial-expired denial. -/
theorem check_subscription_missing_profile (now : Int) :
    check_subscription none now = Except.error 404 ∧
    ∀ r, check_subscription none now ≠ Except.ok r := by
  refine ⟨rfl, ?_⟩
  intro r h
  simp [check_subscription] at h

/-- C2: moving a deal to a status outside the 5-value enum fails with a 400
validation error and leaves the stored table — in particular every deal's
status — unchanged. -/
theorem move_deal_invalid_status (db : List DealRow) (uid deal_id : Nat)
    (new_status : String) (h : new_status ∉ valid_statuses) :
    (move_deal db uid deal_id new_status).1 = db ∧
    (move_deal db uid deal_id new_status).2 = Except.error 400 := by
  simp [move_deal, h]

/-- Witness for C2: moving deal 1 to the status "archived" (not in the enum)
on a one-row table errors with 400 and keeps the row intact. -/
theorem move_deal_invalid_status_witness :
    "archived" ∉ valid_statuses ∧
    (move_deal [{ id := 1, user_id := 7, status := "lead" }] 7 1 "archived").1 =
      [{ id := 1, user_id := 7, status := "lead" }] ∧
    (move_deal [{ id := 1, user_id := 7, status := "lead" }] 7 1 "archived").2 =
      Except.error 400 :=
  ⟨by decide,
   (move_deal_invalid_status [{ id := 1, user_id := 7, status := "lead" }]
      7 1 "archived" (by decide)).1,
   (move_deal_invalid_status [{ id := 1, user_id := 7, status := "lead" }]
      7 1 "archived" (by decide)).2⟩

/-- Unfolding lemma: when the customer lookup succeeds, the deleted-event
branch is the corresponding map over the table. -/
theorem stripe_deleted_update_eq (db : List ProfileRow) (cid : String)
    (p : ProfileRow)
    (h : db.find? (fun q => q.stripe_customer_id == some cid) = some p) :
    stripe_webhook_subscription_deleted db cid =
      db.map (fun q =>
        if q.id = p.id then
          { q with subscription_status := "cancelled",
                   subscription_tier := "free" }
        else q) := by
  simp [stripe_webhook_subscription_deleted, h]

/-- C7: when the customer id of the event matches a stored profile, the
handler sets the `subscription_status` of that profile to "cancelled" and
`subscription_tier` to "free", and delivering the identical event again
leaves the table exactly as after the first delivery. -/
theorem stripe_webhook_subscription_deleted_idem (db : List ProfileRow)
    (cid : String) (p : ProfileRow)
    (h : db.find? (fun q => q.stripe_customer_id == some cid) = some p) :
    (∀ q ∈ stripe_webhook_subscription_deleted db cid, q.id = p.id →
      q.subscription_status = "cancelled" ∧ q.subscription_tier = "free") ∧
    stripe_webhook_subscription_deleted
        (stripe_webhook_subscription_deleted db cid) cid =
      stripe_webhook_subscription_deleted db cid := by
  have hupd := stripe_deleted_update_eq db cid p h
  constructor
  · intro q hq hid
    rw [hupd] at hq
    rcases List.mem_map.mp hq with ⟨q0, _, hq0⟩
    by_cases hc : q0.id = p.id
    · simp [hc] at hq0
      rw [← hq0]
      exact ⟨rfl, rfl⟩
    · simp [hc] at hq0
      rw [← hq0] at hid
      exact absurd hid hc
  · have hfind2 : (stripe_webhook_subscription_deleted db cid).find?
        (fun q => q.stripe_customer_id == some cid) =
        some { p with subscription_status := "cancelled",
                      subscription_tier := "free" } := by
      rw [hupd, List.find?_map]
      have hcomp : ((fun q : ProfileRow => q.stripe_customer_id == some cid) ∘
          (fun q : ProfileRow =>
            if q.id = p.id then
              { q with subscription_status := "cancelled",
                       subscription_tier := "free" }
            else q)) =
          fun q : ProfileRow => q.stripe_customer_id == some cid := by
        funext q
        by_cases hc : q.id = p.id <;> simp [hc]
      rw [hcomp, h]
      simp
    have hupd2 := stripe_deleted_update_eq _ cid _ hfind2
    rw [hupd2, hupd, List.map_map]
    apply List.map_congr_left
    intro q _
    by_cases hc : q.id = p.id <;> simp [hc]

/-- Witness for C7: a two-profile table where customer "cus_1" matches the
first profile; one delivery cancels it and a second delivery is a no-op. -/
theorem stripe_webhook_subscription_deleted_idem_witness :
    (∀ q ∈ stripe_webhook_subscription_deleted
        [{ id := 1, stripe_customer_id := some "cus_1",
           subscription_status := "active", subscription_tier := "pro" },
         { id := 2, stripe_customer_id := some "cus_2",
           subscription_status := "active", subscription_tier := "pro" }]
        "cus_1", q.id = 1 →
      q.subscription_status = "cancelled" ∧ q.subscription_tier = "free") ∧
    stripe_webhook_subscription_deleted
        (stripe_webhook_subscription_deleted
          [{ id := 1, stripe_customer_id := some "cus_1",
             subscription_status := "active", subscription_tier := "pro" },
           { id := 2, stripe_customer_id := some "cus_2",
             subscription_status := "active", subscription_tier := "pro" }]
          "cus_1") "cus_1" =
      stripe_webhook_subscription_deleted
        [{ id := 1, stripe_customer_id := some "cus_1",
           subscription_status := "active", subscription_tier := "pro" },
         { id := 2, stripe_customer_id := some "cus_2",
           subscription_status := "active", subscription_tier := "pro" }]
        "cus_1" :=
  stripe_webhook_subscription_deleted_idem
    [{ id := 1, stripe_customer_id := some "cus_1",
       subscription_status := "active", subscription_tier := "pro" },
     { id := 2, stripe_customer_id := some "cus_2",
       subscription_status := "active", subscription_tier := "pro" }]
    "cus_1"
    { id := 1, stripe_customer_id := some "cus_1",
      subscription_status := "active", subscription_tier := "pro" }
    (by decide)

theorem statsStep_closed_value (acc : StatsAcc) (d : DealStatRec) :
    (statsStep acc d).closed_value =
      acc.closed_value +
        (if 0 < amtOf d ∧ d.status = "closed_won" then amtOf d else 0) := by
  unfold statsStep
  split_ifs with h1 h2 h3 <;> simp_all

theorem statsStep_pipeline_value (acc : StatsAcc) (d : DealStatRec) :
    (statsStep acc d).pipeline_value =
      acc.pipeline_value +
        (if 0 < amtOf d ∧ d.status ∈ openStatuses then amtOf d else 0) := by
  unfold statsStep
  split_ifs with h1 h2 h3 <;> simp_all [openStatuses]

theorem statsStep_deal_amounts (acc : StatsAcc) (d : DealStatRec) :
    (statsStep acc d).deal_amounts =
      acc.deal_amounts ++ (if 0 < amtOf d then [amtOf d] else []) := by
  unfold statsStep
  split_ifs with h1 h2 h3 <;> simp_all

theorem foldl_closed_value (deals : List DealStatRec) (acc : StatsAcc) :
    (deals.foldl statsStep acc).closed_value =
      acc.closed_value +
        ((deals.filter (fun d =>
          decide (0 < amtOf d) && decide (d.status = "closed_won"))).map
            amtOf).sum := by
  induction deals generalizing acc with
  | nil => simp
  | cons d rest ih =>
    rw [List.foldl_cons, ih, statsStep_closed_value]
    by_cases h1 : 0 < amtOf d <;> by_cases h2 : d.status = "closed_won" <;>
      simp [h1, h2, add_assoc]

theorem foldl_pipeline_value (deals : List DealStatRec) (acc : StatsAcc) :
    (deals.foldl statsStep acc).pipeline_value =
      acc.pipeline_value +
        ((deals.filter (fun d =>
          decide (0 < amtOf d) && decide (d.status ∈ openStatuses))).map
            amtOf).sum := by
  induction deals generalizing acc with
  | nil => simp
  | cons d rest ih =>
    rw [List.foldl_cons, ih, statsStep_pipeline_value]
    by_cases h1 : 0 < amtOf d <;> by_cases h2 : d.status ∈ openStatuses <;>
      simp [h1, h2, add_assoc]

theorem foldl_deal_amounts (deals : List DealStatRec) (acc : StatsAcc) :
    (deals.foldl statsStep acc).deal_amounts =
      acc.deal_amounts ++
        (deals.filter (fun d => decide (0 < amtOf d))).map amtOf := by
  induction deals generalizing acc with
  | nil => simp
  | cons d rest ih =>
    rw [List.foldl_cons, ih, statsStep_deal_amounts]
    by_cases h1 : 0 < amtOf d <;> simp [h1]

/-- Dropping the positivity side-condition from a filter does not change
the amount sum when all amounts are nonnegative (zero amounts contribute
nothing). -/
theorem sum_filter_pos (P : DealStatRec → Bool) (deals : List DealStatRec)
    (h : ∀ d ∈ deals, 0 ≤ amtOf d) :
    ((deals.filter (fun d => decide (0 < amtOf d) && P d)).map amtOf).sum =
      ((deals.filter P).map amtOf).sum := by
  induction deals with
  | nil => rfl
  | cons d rest ih =>
    have hd := h d (List.mem_cons_self d rest)
    have hrest : ∀ x ∈ rest, 0 ≤ amtOf x :=
      fun x hx => h x (List.mem_cons_of_mem d hx)
    by_cases hp : P d = true
    · by_cases hpos : 0 < amtOf d
      · simp [hp, hpos, ih hrest]
      · have h0 : amtOf d = 0 := le_antisymm (not_lt.mp hpos) hd
        simp [hp, hpos, ih hrest, h0]
    · simp [hp, ih hrest]

/-- C3: with all amounts nonnegative, `get_deal_stats` returns exactly the
decimal sum of `closed_won` amounts as `closed_value`, exactly the decimal
sum of open-status amounts as `pipeline_value`, and the arithmetic mean
over strictly-positive amounts (or `none`) as `avg_deal_size`. -/
theorem get_deal_stats_exact (deals : List DealStatRec)
    (h : ∀ d ∈ deals, 0 ≤ amtOf d) :
    (get_deal_stats deals).closed_value = spec_closed_value deals ∧
    (get_deal_stats deals).pipeline_value = spec_pipeline_value deals ∧
    (get_deal_stats deals).avg_deal_size = spec_avg_deal_size deals := by
  refine ⟨?_, ?_, ?_⟩
  · show (deals.foldl statsStep ⟨[], 0, 0, []⟩).closed_value = _
    rw [foldl_closed_value, spec_closed_value,
      sum_filter_pos (fun d => decide (d.status = "closed_won")) deals h]
    simp
  · show (deals.foldl statsStep ⟨[], 0, 0, []⟩).pipeline_value = _
    rw [foldl_pipeline_value, spec_pipeline_value,
      sum_filter_pos (fun d => decide (d.status ∈ openStatuses)) deals h]
    simp
  · show (if (deals.foldl statsStep ⟨[], 0, 0, []⟩).deal_amounts.isEmpty
        then none
        else some ((deals.foldl statsStep ⟨[], 0, 0, []⟩).deal_amounts.sum /
          ((deals.foldl statsStep ⟨[], 0, 0, []⟩).deal_amounts.length : ℚ)))
        = spec_avg_deal_size deals
    rw [spec_avg_deal_size, foldl_deal_amounts]
    simp

/-- Witness for C3: a concrete four-deal table with decimal amounts
(including a null amount and a closed-lost deal). -/
theorem get_deal_stats_exact_witness :
    (get_deal_stats
        [{ status := "closed_won", amount := some (3 / 2) },
         { status := "lead", amount := some 2 },
         { status := "closed_lost", amount := some 5 },
         { status := "negotiation", amount := none }]).closed_value =
      spec_closed_value
        [{ status := "closed_won", amount := some (3 / 2) },
         { status := "lead", amount := some 2 },
         { status := "closed_lost", amount := some 5 },
         { status := "negotiation", amount := none }] ∧
    (get_deal_stats
        [{ status := "closed_won", amount := some (3 / 2) },
         { status := "lead", amount := some 2 },
         { status := "closed_lost", amount := some 5 },
         { status := "negotiation", amount := none }]).pipeline_value =
      spec_pipeline_value
        [{ status := "closed_won", amount := some (3 / 2) },
         { status := "lead", amount := some 2 },
         { status := "closed_lost", amount := some 5 },
         { status := "negotiation", amount := none }] ∧
    (get_deal_stats
        [{ status := "closed_won", amount := some (3 / 2) },
         { status := "lead", amount := some 2 },
         { status := "closed_lost", amount := some 5 },
         { status := "negotiation", amount := none }]).avg_deal_size =
      spec_avg_deal_size
        [{ status := "closed_won", amount := some (3 / 2) },
         { status := "lead", amount := some 2 },
         { status := "closed_lost", amount := some 5 },
         { status := "negotiation", amount := none }] :=
  get_deal_stats_exact
    [{ status := "closed_won", amount := some (3 / 2) },
     { status := "lead", amount := some 2 },
     { status := "closed_lost", amount := some 5 },
     { status := "negotiation", amount := none }]
    (by
      intro d hd
      fin_cases hd <;> norm_num [amtOf])

theorem processRows_fst (uid : Nat) (platform : String)
    (parseIso : String → Option String) (rows : List CSVRow) (n : Nat) :
    (processRows uid platform parseIso rows n).1 =
      (rows.filter (fun r => !decide (rowContent r = ""))).map
        (mkCommentDict uid platform parseIso) := by
  induction rows generalizing n with
  | nil => rfl
  | cons r rest ih =>
    by_cases h : rowContent r = "" <;> simp [processRows, h, ih]

theorem processRows_snd_length (uid : Nat) (platform : String)
    (parseIso : String → Option String) (rows : List CSVRow) (n : Nat) :
    (processRows uid platform parseIso rows n).2.length =
      (rows.filter (fun r => decide (rowContent r = ""))).length := by
  induction rows generalizing n with
  | nil => rfl
  | cons r rest ih =>
    by_cases h : rowContent r = "" <;> simp [processRows, h, ih]

/-- C5: a CSV row with empty (or whitespace-only) content is excluded from
the inserted comments and counted among the per-row errors — the inserted
list is exactly the non-empty rows, in order, and the error list has one
entry per empty row — and a well-formed row populating only the `content`
column is imported with `author_name`, `author_handle`, `post_url`,
`post_title` and `original_date` all null. -/
theorem upload_comments_csv_rows_spec (uid : Nat) (platform : String)
    (parseIso : String → Option String) (rows : List CSVRow) (c : String)
    (hc : strip c ≠ "") :
    (processRows uid platform parseIso rows 0).1 =
      (rows.filter (fun r => !decide (rowContent r = ""))).map
        (mkCommentDict uid platform parseIso) ∧
    (processRows uid platform parseIso rows 0).2.length =
      (rows.filter (fun r => decide (rowContent r = ""))).length ∧
    upload_comments_csv uid platform parseIso "comments.csv"
        [{ content := some c, author_name := none, author_handle := none,
           post_url := none, post_title := none, date := none }] =
      Except.ok
        ([{ user_id := uid, platform := platform, content := strip c,
            author_name := none, author_handle := none, post_url := none,
            post_title := none, original_date := none }], []) := by
  refine ⟨processRows_fst uid platform parseIso rows 0,
    processRows_snd_length uid platform parseIso rows 0, ?_⟩
  have hrc : rowContent
      { content := some c, author_name := none, author_handle := none,
        post_url := none, post_title := none, date := none } = strip c := rfl
  have hcsv : filenameEndsWithCsv "comments.csv" = true := by decide
  simp [upload_comments_csv, processRows, hrc, hc, hcsv, mkCommentDict,
    optField]

/-- Witness for C5 at a concrete two-row CSV: the first row has
whitespace-only content (excluded, one error), the second populates only
`content` (imported with all optional fields null). -/
theorem upload_comments_csv_rows_spec_witness :
    (processRows 7 "instagram" (fun _ => none)
        [{ content := some "  ", author_name := none, author_handle := none,
           post_url := none, post_title := none, date := none },
         { content := some "hello", author_name := none,
           author_handle := none, post_url := none, post_title := none,
           date := none }] 0).1 =
      ([{ content := some "  ", author_name := none, author_handle := none,
          post_url := none, post_title := none, date := none },
        { content := some "hello", author_name := none,
          author_handle := none, post_url := none, post_title := none,
          date := none }].filter
            (fun r => !decide (rowContent r = ""))).map
        (mkCommentDict 7 "instagram" (fun _ => none)) ∧
    (processRows 7 "instagram" (fun _ => none)
        [{ content := some "  ", author_name := none, author_handle := none,
           post_url := none, post_title := none, date := none },
         { content := some "hello", author_name := none,
           author_handle := none, post_url := none, post_title := none,
           date := none }] 0).2.length =
      ([{ content := some "  ", author_name := none, author_handle := none,
          post_url := none, post_title := none, date := none },
        { content := some "hello", author_name := none,
          author_handle := none, post_url := none, post_title := none,
          date := none }].filter
            (fun r => decide (rowContent r = ""))).length ∧
    upload_comments_csv 7 "instagram" (fun _ => none) "comments.csv"
        [{ content := some "hello", author_name := none,
           author_handle := none, post_url := none, post_title := none,
           date := none }] =
      Except.ok
        ([{ user_id := 7, platform := "instagram", content := strip "hello",
            author_name := none, author_handle := none, post_url := none,
            post_title := none, original_date := none }], []) :=
  upload_comments_csv_rows_spec 7 "instagram" (fun _ => none)
    [{ content := some "  ", author_name := none, author_handle := none,
       post_url := none, post_title := none, date := none },
     { content := some "hello", author_name := none, author_handle := none,
       post_url := none, post_title := none, date := none }]
    "hello" (by decide)

set_option maxRecDepth 8000 in
/-- C8 counterexample: a single video answering six pages of 90 comments
each makes the handler accumulate and persist 540 comments — strictly
more than 500 — because a whole page is appended before the size check. -/
theorem import_youtube_comments_over_500 :
    (import_youtube_comments
        [List.replicate 6 (List.replicate 90 "c")]).length = 540 ∧
    ¬ (import_youtube_comments
        [List.replicate 6 (List.replicate 90 "c")]).length ≤ 500 := by
  have h : (import_youtube_comments
      [List.replicate 6 (List.replicate 90 "c")]).length = 540 := by rfl
  exact ⟨h, by rw [h]; norm_num⟩

theorem fetchVideoPages_bound (pages : List (List String))
    (acc : List String) (hacc : acc.length < 500)
    (hp : ∀ page ∈ pages, page.length ≤ 100) :
    (fetchVideoPages pages acc).length ≤ 599 := by
  induction pages generalizing acc with
  | nil => exact le_trans (le_of_lt hacc) (by norm_num)
  | cons page rest ih =>
    have hpage : page.length ≤ 100 := hp page (List.mem_cons_self page rest)
    have hrest : ∀ p ∈ rest, p.length ≤ 100 :=
      fun p hp2 => hp p (List.mem_cons_of_mem page hp2)
    have hlen : (acc ++ page).length ≤ 599 := by
      rw [List.length_append]
      omega
    rw [fetchVideoPages]
    by_cases hstop : rest.isEmpty || decide (500 ≤ (acc ++ page).length)
    · rw [if_pos hstop]
      exact hlen
    · rw [if_neg hstop]
      have h2 : ¬ 500 ≤ (acc ++ page).length := by
        intro h3
        apply hstop
        have h4 : 500 ≤ acc.length + page.length := by simpa using h3
        simp [h4]
      exact ih (acc ++ page) (lt_of_not_le h2) hrest

theorem importLoop_bound (videos : List (List (List String)))
    (acc : List String) (hacc : acc.length < 500)
    (hv : ∀ v ∈ videos, ∀ p ∈ v, p.length ≤ 100) :
    (importLoop videos acc).length ≤ 599 := by
  induction videos generalizing acc with
  | nil => exact le_trans (le_of_lt hacc) (by norm_num)
  | cons video rest ih =>
    have hvid : ∀ p ∈ video, p.length ≤ 100 :=
      hv video (List.mem_cons_self video rest)
    have hrest : ∀ v ∈ rest, ∀ p ∈ v, p.length ≤ 100 :=
      fun v hv2 => hv v (List.mem_cons_of_mem video hv2)
    rw [importLoop]
    by_cases hstop : 500 ≤ (fetchVideoPages video acc).length
    · rw [if_pos hstop]
      exact fetchVideoPages_bound video acc hacc hvid
    · rw [if_neg hstop]
      exact ih (fetchVideoPages video acc) (lt_of_not_le hstop) hrest

/-- C8 amended: when every remote page carries at most `maxResults = 100`
items, the accumulated and persisted total is bounded by 599
(`499 + 100`): pagination stops at the end of the first page at which the
running total reaches 500, or at exhaustion of pages, whichever comes
first — but the page that crosses the threshold is appended in full, so
the exact bound is 599, not 500. -/
theorem import_youtube_comments_bound (videos : List (List (List String)))
    (h : ∀ v ∈ videos, ∀ p ∈ v, p.length ≤ 100) :
    (import_youtube_comments videos).length ≤ 599 :=
  importLoop_bound videos [] (by norm_num) h

/-- Witness for the amended C8 bound at the counterexample input itself
(six pages of 90 comments, each page within the 100-item page cap). -/
theorem import_youtube_comments_bound_witness :
    (import_youtube_comments
        [List.replicate 6 (List.replicate 90 "c")]).length ≤ 599 :=
  import_youtube_comments_bound [List.replicate 6 (List.replicate 90 "c")]
    (by decide)

/-- C4: whenever the clustering endpoint succeeds, every comment of the
resulting table whose id was among the originally fetched comments — also
one assigned to no cluster — ends with `is_processed = true`. -/
theorem cluster_comments_marks_all_fetched (st : AIState) (uid : Nat)
    (req : ClusterRequest) (groups : List GroupData) (st2 : AIState)
    (resp : ClusterAnalysisResponse) (c : CommentRow)
    (hok : cluster_comments st uid req groups = Except.ok (st2, resp))
    (hc : c ∈ st2.comments)
    (hid : c.id ∈ (fetchComments st.comments uid req).map (fun f => f.id)) :
    c.is_processed = true := by
  rw [cluster_comments] at hok
  by_cases hguard :
      (fetchComments st.comments uid req).length < req.min_cluster_size
  · rw [if_pos hguard] at hok
    exact absurd hok (by simp)
  · rw [if_neg hguard] at hok
    have hpair : (runClustering st uid req groups,
        ({ clusters_created := groups.length
           comments_processed :=
             (fetchComments st.comments uid req).length } :
          ClusterAnalysisResponse)) = (st2, resp) := by
      injection hok
    have hst2 : st2 = runClustering st uid req groups :=
      (congrArg Prod.fst hpair).symm
    rw [hst2] at hc
    simp only [runClustering, markProcessed] at hc
    rcases List.mem_map.mp hc with ⟨c0, hc0, hmark⟩
    by_cases hin :
        c0.id ∈ (fetchComments st.comments uid req).map (fun f => f.id)
    · rw [if_pos hin] at hmark
      rw [← hmark]
    · rw [if_neg hin] at hmark
      rw [← hmark] at hid
      exact absurd hid hin

/-- Witness for C4 at the concrete 10-comment scenario: the endpoint
succeeds, the two created cluster rows carry `comment_count` 3 and 2, the
final table has every comment processed, and the unassigned comment 6
ends processed (through the theorem). -/
theorem cluster_comments_marks_all_fetched_witness :
    cluster_comments demoState 1 demoReq demoGroups =
      Except.ok (runClustering demoState 1 demoReq demoGroups,
        { clusters_created := 2, comments_processed := 10 }) ∧
    (runClustering demoState 1 demoReq demoGroups).clusters.map
      (fun cl => cl.comment_count) = [3, 2] ∧
    (runClustering demoState 1 demoReq demoGroups).comments.all
      (fun c => c.is_processed) = true ∧
    ({ id := 6, user_id := 1, content := "c6", platform := none,
       import_id := none, is_processed := true, cluster_id := none } :
      CommentRow).is_processed = true :=
  ⟨by rfl, by rfl, by rfl,
   cluster_comments_marks_all_fetched demoState 1 demoReq demoGroups
     (runClustering demoState 1 demoReq demoGroups)
     { clusters_created := 2, comments_processed := 10 }
     { id := 6, user_id := 1, content := "c6", platform := none,
       import_id := none, is_processed := true, cluster_id := none }
     (by rfl) (by decide) (by decide)⟩

/-- C6: the clustering endpoint fails with a 400 validation error exactly
when fewer comments are available (fetched with the 500 cap) than the
requested `min_cluster_size`; and the prompt line list contains precisely
the first 200 fetched comments — position `i` holds the formatted comment
`i` for `i < 200` and nothing beyond. -/
theorem cluster_comments_min_size_and_prompt (st : AIState) (uid : Nat)
    (req : ClusterRequest) (groups : List GroupData) :
    (cluster_comments st uid req groups = Except.error 400 ↔
      (fetchComments st.comments uid req).length < req.min_cluster_size) ∧
    (fetchComments st.comments uid req).length ≤ 500 ∧
    (comments_for_ai (fetchComments st.comments uid req)).length =
      min 200 (fetchComments st.comments uid req).length ∧
    ∀ i, (comments_for_ai (fetchComments st.comments uid req))[i]? =
      if i < 200 then
        ((fetchComments st.comments uid req)[i]?).map
          (fun c => "[" ++ toString i ++ "] " ++ c.content)
      else none := by
  refine ⟨?_, ?_, ?_, ?_⟩
  · constructor
    · intro h
      by_contra hguard
      rw [cluster_comments, if_neg hguard] at h
      exact absurd h (by simp)
    · intro h
      rw [cluster_comments, if_pos h]
  · rw [fetchComments]
    simp
  · rw [comments_for_ai]
    simp [Nat.min_comm]
  · intro i
    rw [comments_for_ai]
    rw [List.getElem?_map, List.getElem?_enum, List.getElem?_take]
    by_cases hi : i < 200
    · cases h2 : (fetchComments st.comments uid req)[i]? <;> simp [hi, h2]
    · simp [hi]

/-- Witness for C6 at concrete inputs: with `min_cluster_size = 20` and
only ten comments the endpoint answers 400, and the demo prompt list has
`min 200 10 = 10` lines. -/
theorem cluster_comments_min_size_and_prompt_witness :
    cluster_comments demoState 1
      { comment_ids := none, num_clusters := 2, min_cluster_size := 20 }
      demoGroups = Except.error 400 ∧
    (comments_for_ai (fetchComments demoState.comments 1 demoReq)).length =
      min 200 (fetchComments demoState.comments 1 demoReq).length :=
  ⟨(cluster_comments_min_size_and_prompt demoState 1
      { comment_ids := none, num_clusters := 2, min_cluster_size := 20 }
      demoGroups).1.mpr (by decide),
   (cluster_comments_min_size_and_prompt demoState 1 demoReq
      demoGroups).2.2.1⟩

/-- C10: a model group none of whose indices maps to a stored comment and
whose text fallback matches nothing still inserts a cluster row, with
`comment_count` equal to the length of the free-text `sample_comments`
list of the model, while the join table and the comments (in particular
every `cluster_id`) are left untouched — so the `comment_count` of the
new row can differ from its number of linked comments (here zero). -/
theorem processGroup_unmatched (uid : Nat) (fetched : List CommentRow)
    (st : AIState) (g : GroupData)
    (h1 : indexMembers fetched g = [])
    (h2 : fallbackMatches fetched g.sample_comments = []) :
    processGroup uid fetched st g =
      { comments := st.comments
        clusters := st.clusters ++
          [{ id := st.nextClusterId
             user_id := uid
             theme := g.theme
             summary := g.summary
             sample_comments := []
             content_ideas := g.content_ideas
             comment_count := g.sample_comments.length
             is_active := true
             primary_platform := none
             platforms := []
             import_ids := [] }]
        cluster_comments := st.cluster_comments
        nextClusterId := st.nextClusterId + 1 } := by
  have hm : groupMembers fetched g = [] := by
    rw [groupMembers, h1]
    simp [h2]
  simp [processGroup, hm, primaryPlatform]
  exact ⟨rfl, rfl, rfl⟩

/-- Witness for C10: a group with only out-of-range indices [99, -1] and
free-text samples matching none of the ten stored comments creates a
cluster row with `comment_count = 2` and zero join rows. -/
theorem processGroup_unmatched_witness :
    processGroup 1 demoComments demoState
      { theme := "Ghost", summary := "", sample_comment_indices := [99, -1],
        sample_comments := ["zzz", "qqq"], content_ideas := [] } =
      { comments := demoState.comments
        clusters := demoState.clusters ++
          [{ id := demoState.nextClusterId
             user_id := 1
             theme := "Ghost"
             summary := ""
             sample_comments := []
             content_ideas := []
             comment_count := 2
             is_active := true
             primary_platform := none
             platforms := []
             import_ids := [] }]
        cluster_comments := demoState.cluster_comments
        nextClusterId := demoState.nextClusterId + 1 } :=
  processGroup_unmatched 1 demoComments demoState
    { theme := "Ghost", summary := "", sample_comment_indices := [99, -1],
      sample_comments := ["zzz", "qqq"], content_ideas := [] }
    (by decide) (by decide)

end CreatorOS
